import Mathlib

/-!
Shallow embedding of the NutriVision core logic:

* `src/lib/nutrition-logic.ts` — activity multipliers, `calculateBMR`,
  `calculateTDEE`, the Food-101 nutrition map, `getNutritionInfo`;
* the nutrition context (`NutritionProvider`) — meal ledger state,
  `setProfile`, `addMeal`, `removeMeal`, `getTodaysMeals`, `getTodaysSummary`;
* the API client — `predictFood` and `getCoachingTip`.

JavaScript numbers are modelled as rationals (all constants in the source are
exactly representable and the arithmetic involved stays within exact range for
the inputs considered), strings as Lean strings (the labels involved are
ASCII, where JavaScript `toLowerCase` agrees with `Char.toLower`), awaited
network calls as explicit `Except`-valued arguments, and `AsyncStorage` as a
stored component of the state plus an explicit persistence outcome.
-/

namespace NutriVision

/-- One step of JavaScript `replace(/\s+/g, '_')`: each maximal run of
whitespace becomes a single underscore.  The boolean records whether the
previous character was part of a whitespace run already replaced. -/
def squashWs : Bool → List Char → List Char
  | _, [] => []
  | prevWs, c :: cs =>
    if c.isWhitespace then
      if prevWs then squashWs true cs else '_' :: squashWs true cs
    else c :: squashWs false cs

/-- The normalization `label.toLowerCase().replace(/\s+/g, '_')` that appears
verbatim in both `calculateTDEE` and `getNutritionInfo`. -/
def normalizeKey (s : String) : String :=
  String.mk (squashWs false (s.data.map Char.toLower))

/-- `ACTIVITY_MULTIPLIERS` from `src/lib/nutrition-logic.ts`. -/
def ACTIVITY_MULTIPLIERS : List (String × ℚ) :=
  [("sedentary", 1.2),
   ("lightly_active", 1.375),
   ("moderately_active", 1.55),
   ("very_active", 1.725),
   ("super_active", 1.9)]

inductive Gender
  | male
  | female
  | other
  deriving DecidableEq

/-- `calculateBMR` from `src/lib/nutrition-logic.ts` (Mifflin-St Jeor). -/
def calculateBMR (gender : Gender) (weight_kg height_cm age : ℚ) : ℚ :=
  let baseCalc := (10 * weight_kg) + (6.25 * height_cm) - (5 * age)
  match gender with
  | .male => baseCalc + 5
  | .female => baseCalc - 161
  | .other => baseCalc - 78

/-- JavaScript `Math.round`: round half toward positive infinity. -/
def jsRound (q : ℚ) : ℤ :=
  ⌊q + 1/2⌋

/-- `calculateTDEE` from `src/lib/nutrition-logic.ts`.  The source's
`ACTIVITY_MULTIPLIERS[normalizedLevel] || 1.2` is a defaulting lookup: every
multiplier in the table is nonzero, hence truthy, so `||` fires exactly on a
missing key. -/
def calculateTDEE (bmr : ℚ) (activityLevel : String) : ℤ :=
  let normalizedLevel := normalizeKey activityLevel
  let multiplier := (ACTIVITY_MULTIPLIERS.lookup normalizedLevel).getD 1.2
  jsRound (bmr * multiplier)

structure NutritionInfo where
  calories : ℚ
  unit : String
  deriving DecidableEq

/-- `FOOD_101_NUTRITION_MAP` from `src/lib/nutrition-logic.ts`, its 100
entries in source order.  The table is split into four quarters and
concatenated only because one 100-entry list literal elaborates too
slowly; the resulting list is the map verbatim. -/
def foodMapPart0 : List (String × NutritionInfo) :=
  [("apple_pie", ⟨237, "slice (100g)"⟩),
   ("baby_back_ribs", ⟨361, "1/2 rack"⟩),
   ("baklava", ⟨334, "piece"⟩),
   ("beef_carpaccio", ⟨140, "serving"⟩),
   ("beef_tartare", ⟨240, "serving"⟩),
   ("beet_salad", ⟨120, "serving"⟩),
   ("beignets", ⟨220, "piece"⟩),
   ("bibimbap", ⟨490, "bowl"⟩),
   ("bread_pudding", ⟨270, "slice"⟩),
   ("breakfast_burrito", ⟨290, "burrito"⟩),
   ("bruschetta", ⟨50, "piece"⟩),
   ("caesar_salad", ⟨180, "serving"⟩),
   ("cannoli", ⟨200, "piece"⟩),
   ("caprese_salad", ⟨220, "serving"⟩),
   ("carrot_cake", ⟨350, "slice"⟩),
   ("ceviche", ⟨140, "cup"⟩),
   ("cheesecake", ⟨321, "slice"⟩),
   ("cheese_plate", ⟨450, "serving"⟩),
   ("chicken_curry", ⟨340, "serving"⟩),
   ("chicken_quesadilla", ⟨520, "quesadilla"⟩),
   ("chicken_wings", ⟨203, "3 wings"⟩),
   ("chocolate_cake", ⟨371, "slice"⟩),
   ("chocolate_mousse", ⟨225, "cup"⟩),
   ("churros", ⟨116, "piece"⟩),
   ("clam_chowder", ⟨250, "cup"⟩)]

def foodMapPart1 : List (String × NutritionInfo) :=
  [("club_sandwich", ⟨590, "sandwich"⟩),
   ("crab_cakes", ⟨160, "cake"⟩),
   ("creme_brulee", ⟨280, "serving"⟩),
   ("croque_madame", ⟨410, "sandwich"⟩),
   ("cup_cakes", ⟨250, "cupcake"⟩),
   ("deviled_eggs", ⟨60, "half egg"⟩),
   ("donuts", ⟨195, "donut"⟩),
   ("dumplings", ⟨40, "dumpling"⟩),
   ("edamame", ⟨121, "cup"⟩),
   ("eggs_benedict", ⟨600, "serving"⟩),
   ("escargots", ⟨80, "serving"⟩),
   ("falafel", ⟨57, "ball"⟩),
   ("filet_mignon", ⟨320, "steak"⟩),
   ("fish_and_chips", ⟨690, "serving"⟩),
   ("foie_gras", ⟨460, "serving"⟩),
   ("french_fries", ⟨312, "medium"⟩),
   ("french_onion_soup", ⟨290, "bowl"⟩),
   ("french_toast", ⟨229, "slice"⟩),
   ("fried_calamari", ⟨340, "serving"⟩),
   ("fried_rice", ⟨330, "cup"⟩),
   ("frozen_yogurt", ⟨110, "cup"⟩),
   ("garlic_bread", ⟨150, "slice"⟩),
   ("gnocchi", ⟨250, "cup"⟩),
   ("greek_salad", ⟨210, "serving"⟩),
   ("grilled_cheese_sandwich", ⟨390, "sandwich"⟩)]

def foodMapPart2 : List (String × NutritionInfo) :=
  [("grilled_salmon", ⟨350, "fillet"⟩),
   ("guacamole", ⟨150, "serving"⟩),
   ("gyoza", ⟨50, "piece"⟩),
   ("hamburger", ⟨295, "burger"⟩),
   ("hot_and_sour_soup", ⟨90, "bowl"⟩),
   ("hot_dog", ⟨150, "dog"⟩),
   ("hummus", ⟨170, "3 tbsp"⟩),
   ("ice_cream", ⟨207, "scoop"⟩),
   ("lasagna", ⟨450, "slice"⟩),
   ("lobster_bisque", ⟨300, "cup"⟩),
   ("lobster_roll_sandwich", ⟨420, "roll"⟩),
   ("macaroni_and_cheese", ⟨350, "cup"⟩),
   ("macarons", ⟨70, "cookie"⟩),
   ("miso_soup", ⟨40, "bowl"⟩),
   ("mussels", ⟨175, "serving"⟩),
   ("nachos", ⟨450, "serving"⟩),
   ("omelette", ⟨154, "serving"⟩),
   ("onion_rings", ⟨410, "medium"⟩),
   ("oysters", ⟨50, "6 oysters"⟩),
   ("pad_thai", ⟨350, "cup"⟩),
   ("paella", ⟨350, "cup"⟩),
   ("pancakes", ⟨64, "pancake"⟩),
   ("panna_cotta", ⟨330, "serving"⟩),
   ("peking_duck", ⟨400, "serving"⟩),
   ("pho", ⟨350, "bowl"⟩)]

def foodMapPart3 : List (String × NutritionInfo) :=
  [("pizza", ⟨266, "slice"⟩),
   ("pork_chop", ⟨290, "chop"⟩),
   ("poutine", ⟨510, "serving"⟩),
   ("prime_rib", ⟨600, "slice"⟩),
   ("pulled_pork_sandwich", ⟨550, "sandwich"⟩),
   ("ramen", ⟨436, "bowl"⟩),
   ("ravioli", ⟨300, "serving"⟩),
   ("red_velvet_cake", ⟨360, "slice"⟩),
   ("risotto", ⟨330, "cup"⟩),
   ("samosa", ⟨150, "piece"⟩),
   ("sashimi", ⟨40, "piece"⟩),
   ("scallops", ⟨110, "serving"⟩),
   ("seaweed_salad", ⟨106, "serving"⟩),
   ("shrimp_and_grits", ⟨450, "serving"⟩),
   ("spaghetti_bolognese", ⟨330, "cup"⟩),
   ("spaghetti_carbonara", ⟨380, "cup"⟩),
   ("spring_rolls", ⟨100, "roll"⟩),
   ("steak", ⟨400, "steak"⟩),
   ("strawberry_shortcake", ⟨250, "slice"⟩),
   ("sushi", ⟨45, "roll"⟩),
   ("tacos", ⟨170, "taco"⟩),
   ("takoyaki", ⟨40, "ball"⟩),
   ("tiramisu", ⟨360, "slice"⟩),
   ("tuna_tartare", ⟨160, "serving"⟩),
   ("waffles", ⟨82, "waffle"⟩)]

def FOOD_101_NUTRITION_MAP : List (String × NutritionInfo) :=
  foodMapPart0 ++ foodMapPart1 ++ foodMapPart2 ++ foodMapPart3

/-- `getNutritionInfo` from `src/lib/nutrition-logic.ts`: normalized lookup
with the fallback fact on a miss (every map entry is truthy, so `||` fires
exactly on a missing key). -/
def getNutritionInfo (foodLabel : String) : NutritionInfo :=
  (FOOD_101_NUTRITION_MAP.lookup (normalizeKey foodLabel)).getD
    { calories := 250, unit := "serving (est)" }

inductive Goal
  | lose
  | maintain
  | gain
  deriving DecidableEq

/-- `UserProfile` from the nutrition context. -/
structure UserProfile where
  weight_kg : ℚ
  height_cm : ℚ
  age : ℚ
  gender : Gender
  activity_level : String
  bmr : ℚ
  tdee : ℚ
  goal : Goal
  deriving DecidableEq

/-- `MealLogEntry` from the nutrition context. -/
structure MealLogEntry where
  id : String
  date : String
  time : String
  food_label : String
  calories : ℚ
  quantity : ℚ
  unit : String
  deriving DecidableEq

/-- The argument of `addMeal`: `Omit<MealLogEntry, 'id'>`. -/
structure MealInput where
  date : String
  time : String
  food_label : String
  calories : ℚ
  quantity : ℚ
  unit : String
  deriving DecidableEq

/-- `DailySummary` from the nutrition context. -/
structure DailySummary where
  date : String
  total_calories : ℚ
  total_protein : ℤ
  total_carbs : ℤ
  total_fats : ℤ
  meals : List MealLogEntry
  deriving DecidableEq

/-- The state owned by `NutritionProvider`: the React state (`profile`,
`meals`) together with the corresponding `AsyncStorage` records. -/
structure NutritionState where
  profile : Option UserProfile
  meals : List MealLogEntry
  storedProfile : Option UserProfile
  storedMeals : List MealLogEntry
  deriving DecidableEq

/-- `setProfile` from the nutrition context: it sets the in-memory profile
first, then awaits the storage write; a write failure is rethrown after the
in-memory update already happened.  `persist` is the outcome of the
`AsyncStorage.setItem` call. -/
def setProfile (st : NutritionState) (newProfile : UserProfile)
    (persist : Except String Unit) : NutritionState × Except String Unit :=
  match persist with
  | .ok _ =>
      ({ st with profile := some newProfile, storedProfile := some newProfile },
       .ok ())
  | .error e => ({ st with profile := some newProfile }, .error e)

/-- `addMeal` from the nutrition context: the new entry gets
`id = Date.now().toString()` (`now` is the millisecond clock reading), is
appended to the in-memory collection first, and then the full collection is
written to storage; a write failure is rethrown after the in-memory update. -/
def addMeal (st : NutritionState) (meal : MealInput) (now : Nat)
    (persist : Except String Unit) : NutritionState × Except String Unit :=
  let newMeal : MealLogEntry :=
    { id := toString now, date := meal.date, time := meal.time,
      food_label := meal.food_label, calories := meal.calories,
      quantity := meal.quantity, unit := meal.unit }
  let updatedMeals := st.meals ++ [newMeal]
  match persist with
  | .ok _ =>
      ({ st with meals := updatedMeals, storedMeals := updatedMeals }, .ok ())
  | .error e => ({ st with meals := updatedMeals }, .error e)

/-- `removeMeal` from the nutrition context: filters out every entry whose id
matches, updates memory first, then persists. -/
def removeMeal (st : NutritionState) (mealId : String)
    (persist : Except String Unit) : NutritionState × Except String Unit :=
  let updatedMeals := st.meals.filter (fun meal => meal.id != mealId)
  match persist with
  | .ok _ =>
      ({ st with meals := updatedMeals, storedMeals := updatedMeals }, .ok ())
  | .error e => ({ st with meals := updatedMeals }, .error e)

/-- `getTodaysMeals` from the nutrition context; `today` is the
`YYYY-MM-DD` string the source derives from the clock. -/
def getTodaysMeals (st : NutritionState) (today : String) : List MealLogEntry :=
  st.meals.filter (fun meal => meal.date == today)

/-- `getTodaysSummary` from the nutrition context. -/
def getTodaysSummary (st : NutritionState) (today : String) : DailySummary :=
  let todaysMeals := getTodaysMeals st today
  let totalCalories := todaysMeals.foldl (fun sum meal => sum + meal.calories) 0
  { date := today,
    total_calories := totalCalories,
    total_protein := jsRound (totalCalories * 0.3 / 4),
    total_carbs := jsRound (totalCalories * 0.45 / 4),
    total_fats := jsRound (totalCalories * 0.25 / 9),
    meals := todaysMeals }

/-- The body of a resolved (2xx) `/predict` response.  The source annotates
it as `FoodPredictionResponse` {label, confidence}, but axios does not
validate the payload: a 2xx body missing either field still resolves, which
the `Option`s record. -/
structure PredictionPayload where
  label : Option String
  confidence : Option ℚ
  deriving DecidableEq

/-- The ways an awaited axios call rejects: timed out, transport failure, or
a response with a non-2xx status (axios rejects those by default). -/
inductive AxiosFailure
  | timeout
  | transport
  | badStatus (code : Nat)
  deriving DecidableEq

/-- The form data `predictFood` builds: either the `image_base64` field or an
`image` file part carrying uri, filename and mime type. -/
inductive FormDataPayload
  | base64 (image_base64 : String)
  | file (uri : String) (name : String) (mime : String)
  deriving DecidableEq

/-- `imageUri.split('/').pop() || 'food.jpg'`: the last slash-separated
segment, or the default when that segment is the empty string (falsy). -/
def filenameOfUri (uri : String) : String :=
  let lastSeg := ((uri.splitOn "/").getLast?).getD ""
  if lastSeg = "" then "food.jpg" else lastSeg

def isWordChar (c : Char) : Bool :=
  c.isAlphanum || c == '_'

/-- The regex match `/\.(\w+)$/.exec(filename)`: a nonempty run of word
characters at the end of the name, directly after a dot. -/
def extOfFilename (filename : String) : Option String :=
  let parts := filename.splitOn "."
  match parts.getLast? with
  | none => none
  | some ext =>
      if 2 ≤ parts.length ∧ ext ≠ "" ∧ ext.data.all isWordChar = true then
        some ext
      else none

/-- The form-data construction inside `predictFood`: base64 data goes into
`image_base64`; a file uri is sent with its filename and a mime type derived
from the extension, defaulting to `image/jpeg`. -/
def buildFormData (imageUri : String) (isBase64 : Bool) : FormDataPayload :=
  if isBase64 then .base64 imageUri
  else
    let filename := filenameOfUri imageUri
    let mime :=
      match extOfFilename filename with
      | some ext => "image/" ++ ext
      | none => "image/jpeg"
    .file imageUri filename mime

/-- `APIClient.predictFood`: posts the form data and returns the response
body; any rejection of the awaited call is caught and rethrown as the fixed
error message — never replaced by a fallback prediction.  A resolved body is
returned unchanged, without validation.  `post` is the outcome of
`modelApi.post('/predict', ...)` as a function of the payload. -/
def predictFood (imageUri : String) (isBase64 : Bool)
    (post : FormDataPayload → Except AxiosFailure PredictionPayload) :
    Except String PredictionPayload :=
  match post (buildFormData imageUri isBase64) with
  | .ok result => .ok result
  | .error _ => .error "Failed to predict food. Please try again."

/-- The JSON body `getCoachingTip` posts to `/coaching`. -/
structure CoachingRequest where
  user_tdee : ℚ
  calories_consumed_so_far : ℚ
  detected_food_label : String
  detected_food_calories : ℚ
  user_goal : Goal
  deriving DecidableEq

/-- The body of a resolved (2xx) `/coaching` response.  The source annotates
it as `CoachingTipResponse`, but axios does not validate the payload: a 2xx
body without a `coaching_tip` field still resolves, which `none` records. -/
structure CoachingPayload where
  coaching_tip : Option String
  deriving DecidableEq

/-- `APIClient.getCoachingTip`: posts the request; a rejection of the awaited
call is caught and converted to the fallback tip built from the food label; a
resolved response body is returned unchanged.  `post` is the outcome of
`geminiApi.post('/coaching', ...)` as a function of the request body. -/
def getCoachingTip (userTdee caloriesConsumed : ℚ) (detectedFoodLabel : String)
    (detectedFoodCalories : ℚ) (userGoal : Goal)
    (post : CoachingRequest → Except AxiosFailure CoachingPayload) :
    CoachingPayload :=
  match post { user_tdee := userTdee,
               calories_consumed_so_far := caloriesConsumed,
               detected_food_label := detectedFoodLabel,
               detected_food_calories := detectedFoodCalories,
               user_goal := userGoal } with
  | .ok result => result
  | .error _ =>
      { coaching_tip :=
          some ("You\x27ve logged " ++ detectedFoodLabel ++
            ". Keep tracking your meals!") }

/-- C5: `calculateBMR` returns base + 5 for male, base − 161 for female and
base − 78 otherwise, where base = 10·weight_kg + 6.25·height_cm − 5·age,
with no rounding; in particular the three documented sample values hold. -/
theorem calculateBMR_spec :
    (∀ w h a : ℚ, calculateBMR .male w h a = 10 * w + 6.25 * h - 5 * a + 5)
    ∧ (∀ w h a : ℚ, calculateBMR .female w h a = 10 * w + 6.25 * h - 5 * a - 161)
    ∧ (∀ w h a : ℚ, calculateBMR .other w h a = 10 * w + 6.25 * h - 5 * a - 78)
    ∧ calculateBMR .male 80 180 25 = 1805
    ∧ calculateBMR .female 65 165 30 = 1370.25
    ∧ calculateBMR .other 75 175 28 = 1625.75 := by
  refine ⟨fun w h a => rfl, fun w h a => rfl, fun w h a => rfl, ?_, ?_, ?_⟩
  all_goals norm_num [calculateBMR]

/-- C6: `calculateTDEE` normalizes the activity level, looks the multiplier
up in the fixed 5-entry table, defaults every unrecognized level to 1.2, and
returns Math.round of bmr × multiplier; 1800 with 'sedentary' gives 2160,
and so does 1800 with any level missing from the table. -/
theorem calculateTDEE_spec :
    (∀ (bmr : ℚ) (s : String),
        calculateTDEE bmr s =
          jsRound (bmr * ((ACTIVITY_MULTIPLIERS.lookup (normalizeKey s)).getD 1.2)))
    ∧ ACTIVITY_MULTIPLIERS =
        [("sedentary", 1.2), ("lightly_active", 1.375),
         ("moderately_active", 1.55), ("very_active", 1.725),
         ("super_active", 1.9)]
    ∧ calculateTDEE 1800 "sedentary" = 2160
    ∧ (∀ s : String, ACTIVITY_MULTIPLIERS.lookup (normalizeKey s) = none →
        calculateTDEE 1800 s = 2160) := by
  have hfloor : jsRound (1800 * (1.2 : ℚ)) = 2160 := by
    rw [jsRound, Int.floor_eq_iff] ; norm_num
  refine ⟨fun bmr s => rfl, rfl, ?_, ?_⟩
  · have hsed : normalizeKey "sedentary" = "sedentary" := by decide
    have hlook : ACTIVITY_MULTIPLIERS.lookup "sedentary" = some 1.2 := by
      simp [ACTIVITY_MULTIPLIERS, List.lookup]
    simp only [calculateTDEE, hsed, hlook, Option.getD_some]
    exact hfloor
  · intro s hs
    simp only [calculateTDEE, hs, Option.getD_none]
    exact hfloor

/-- Witness for C6 at the unrecognized level 'unknown_level'. -/
theorem calculateTDEE_spec_witness :
    ACTIVITY_MULTIPLIERS.lookup (normalizeKey "unknown_level") = none
    ∧ calculateTDEE 1800 "unknown_level" = 2160 :=
  ⟨by decide, calculateTDEE_spec.2.2.2 "unknown_level" (by decide)⟩

/-- C9: every label whose normalization (lower-case, whitespace runs to
underscores) misses the static table resolves to the fallback fact
{calories 250, unit 'serving (est)'}; the lookup is a pure total function,
so it is deterministic and has no side effects. -/
theorem getNutritionInfo_fallback_spec :
    ∀ foodLabel : String,
      FOOD_101_NUTRITION_MAP.lookup (normalizeKey foodLabel) = none →
      getNutritionInfo foodLabel = { calories := 250, unit := "serving (est)" } := by
  intro foodLabel h
  simp [getNutritionInfo, h]

/-- Witness for C9 at the unknown label 'unknown_xyz'. -/
theorem getNutritionInfo_fallback_spec_witness :
    FOOD_101_NUTRITION_MAP.lookup (normalizeKey "unknown_xyz") = none
    ∧ getNutritionInfo "unknown_xyz" = { calories := 250, unit := "serving (est)" } :=
  ⟨by decide, getNutritionInfo_fallback_spec "unknown_xyz" (by decide)⟩

/-- C1 counterexample: the table maps 'pizza' to unit 'slice', not
'slice (100g)', and the trailing-space variant 'pizza ' normalizes to
'pizza_', misses the table, and yields the fallback fact — so not every
case/space variant of 'pizza' returns {266, 'slice (100g)'}. -/
theorem getNutritionInfo_pizza_cex :
    (getNutritionInfo "pizza").unit ≠ "slice (100g)"
    ∧ getNutritionInfo "pizza " = { calories := 250, unit := "serving (est)" } := by
  decide

/-- C1 amended: letter-case variants of 'pizza' agree and return
{calories 266, unit 'slice'}; a variant with an extra space normalizes to
'pizza_' and returns the fallback {calories 250, unit 'serving (est)'}. -/
theorem getNutritionInfo_pizza_amended :
    getNutritionInfo "PIZZA" = { calories := 266, unit := "slice" }
    ∧ getNutritionInfo "Pizza" = { calories := 266, unit := "slice" }
    ∧ getNutritionInfo "pizza" = { calories := 266, unit := "slice" }
    ∧ getNutritionInfo "PIZZA" = getNutritionInfo "pizza"
    ∧ getNutritionInfo "pizza " = { calories := 250, unit := "serving (est)" } := by
  decide

/-- C3 counterexample: appending at millisecond reading 5 into a ledger that
already holds an entry with id "5" duplicates the id — `Date.now().toString()`
alone does not guarantee uniqueness. -/
theorem addMeal_id_cex :
    (((addMeal
        { profile := none,
          meals := [{ id := "5", date := "2026-01-01", time := "08:00",
                      food_label := "pizza", calories := 266, quantity := 1,
                      unit := "slice" }],
          storedProfile := none, storedMeals := [] }
        { date := "2026-01-01", time := "09:00", food_label := "sushi",
          calories := 45, quantity := 1, unit := "roll" }
        5 (.ok ())).1.meals.map MealLogEntry.id) = ["5", "5"])
    ∧ ¬ (((addMeal
        { profile := none,
          meals := [{ id := "5", date := "2026-01-01", time := "08:00",
                      food_label := "pizza", calories := 266, quantity := 1,
                      unit := "slice" }],
          storedProfile := none, storedMeals := [] }
        { date := "2026-01-01", time := "09:00", food_label := "sushi",
          calories := 45, quantity := 1, unit := "roll" }
        5 (.ok ())).1.meals.map MealLogEntry.id).Nodup) := by
  decide

/-- C3 amended: the generated id is unique among the held entries provided
the millisecond reading differs from every id already held (which a strictly
increasing clock gives within a session); under that proviso an append
preserves pairwise distinctness of all ids. -/
theorem addMeal_id_unique_amended :
    ∀ (st : NutritionState) (meal : MealInput) (now : Nat)
      (persist : Except String Unit),
      (∀ e ∈ st.meals, e.id ≠ toString now) →
      (st.meals.map MealLogEntry.id).Nodup →
      (((addMeal st meal now persist).1.meals).map MealLogEntry.id).Nodup := by
  intro st meal now persist hfresh hnodup
  have hmeals : (addMeal st meal now persist).1.meals
      = st.meals ++
        [{ id := toString now, date := meal.date, time := meal.time,
           food_label := meal.food_label, calories := meal.calories,
           quantity := meal.quantity, unit := meal.unit }] := by
    cases persist <;> rfl
  rw [hmeals, List.map_append, List.nodup_append]
  refine ⟨hnodup, List.nodup_singleton _, ?_⟩
  intro a ha hb
  rcases List.mem_map.mp ha with ⟨e, he, rfl⟩
  exact hfresh e he (List.mem_singleton.mp hb)

/-- Witness for C3 at a ledger holding one entry with id "1" and an append
at millisecond reading 2. -/
theorem addMeal_id_unique_amended_witness :
    (((addMeal
        { profile := none,
          meals := [{ id := "1", date := "2026-01-01", time := "08:00",
                      food_label := "pizza", calories := 266, quantity := 1,
                      unit := "slice" }],
          storedProfile := none, storedMeals := [] }
        { date := "2026-01-01", time := "09:00", food_label := "sushi",
          calories := 45, quantity := 1, unit := "roll" }
        2 (.ok ())).1.meals).map MealLogEntry.id).Nodup :=
  addMeal_id_unique_amended
    { profile := none,
      meals := [{ id := "1", date := "2026-01-01", time := "08:00",
                  food_label := "pizza", calories := 266, quantity := 1,
                  unit := "slice" }],
      storedProfile := none, storedMeals := [] }
    { date := "2026-01-01", time := "09:00", food_label := "sushi",
      calories := 45, quantity := 1, unit := "roll" }
    2 (.ok ()) (by decide) (by decide)

/-- C4 counterexample: if the ledger already holds an entry with id "5" for
the date, appending at millisecond reading 5 and then removing the generated
id "5" also removes the pre-existing entry, so the date-filtered view
changes. -/
theorem roundtrip_cex :
    getTodaysMeals
        (removeMeal
          (addMeal
            { profile := none,
              meals := [{ id := "5", date := "2026-01-01", time := "08:00",
                          food_label := "pizza", calories := 266, quantity := 1,
                          unit := "slice" }],
              storedProfile := none, storedMeals := [] }
            { date := "2026-01-01", time := "09:00", food_label := "sushi",
              calories := 45, quantity := 1, unit := "roll" }
            5 (.ok ())).1
          (toString 5) (.ok ())).1
        "2026-01-01"
      ≠ getTodaysMeals
          { profile := none,
            meals := [{ id := "5", date := "2026-01-01", time := "08:00",
                        food_label := "pizza", calories := 266, quantity := 1,
                        unit := "slice" }],
            storedProfile := none, storedMeals := [] }
          "2026-01-01" := by
  decide

/-- C4 amended: provided the generated id `toString now` does not already
occur in the ledger, appending and then removing that id leaves the
date-filtered view exactly as it was before the append, whatever the two
persistence outcomes. -/
theorem roundtrip_amended :
    ∀ (st : NutritionState) (meal : MealInput) (now : Nat) (today : String)
      (p1 p2 : Except String Unit),
      (∀ e ∈ st.meals, e.id ≠ toString now) →
      getTodaysMeals
          (removeMeal (addMeal st meal now p1).1 (toString now) p2).1 today
        = getTodaysMeals st today := by
  intro st meal now today p1 p2 hfresh
  have hmeals : (addMeal st meal now p1).1.meals
      = st.meals ++
        [{ id := toString now, date := meal.date, time := meal.time,
           food_label := meal.food_label, calories := meal.calories,
           quantity := meal.quantity, unit := meal.unit }] := by
    cases p1 <;> rfl
  have hrem : (removeMeal (addMeal st meal now p1).1 (toString now) p2).1.meals
      = ((addMeal st meal now p1).1.meals).filter
          (fun meal => meal.id != toString now) := by
    cases p2 <;> rfl
  have h1 : st.meals.filter (fun meal => meal.id != toString now) = st.meals := by
    apply List.filter_eq_self.mpr
    intro a ha
    simpa [bne_iff_ne] using hfresh a ha
  unfold getTodaysMeals
  rw [hrem, hmeals, List.filter_append, h1]
  simp

/-- Witness for C4 at a ledger holding one entry with id "1" and an append
at millisecond reading 2. -/
theorem roundtrip_amended_witness :
    getTodaysMeals
        (removeMeal
          (addMeal
            { profile := none,
              meals := [{ id := "1", date := "2026-01-01", time := "08:00",
                          food_label := "pizza", calories := 266, quantity := 1,
                          unit := "slice" }],
              storedProfile := none, storedMeals := [] }
            { date := "2026-01-01", time := "09:00", food_label := "sushi",
              calories := 45, quantity := 1, unit := "roll" }
            2 (.ok ())).1
          (toString 2) (.ok ())).1
        "2026-01-01"
      = getTodaysMeals
          { profile := none,
            meals := [{ id := "1", date := "2026-01-01", time := "08:00",
                        food_label := "pizza", calories := 266, quantity := 1,
                        unit := "slice" }],
            storedProfile := none, storedMeals := [] }
          "2026-01-01" :=
  roundtrip_amended
    { profile := none,
      meals := [{ id := "1", date := "2026-01-01", time := "08:00",
                  food_label := "pizza", calories := 266, quantity := 1,
                  unit := "slice" }],
      storedProfile := none, storedMeals := [] }
    { date := "2026-01-01", time := "09:00", food_label := "sushi",
      calories := 45, quantity := 1, unit := "roll" }
    2 "2026-01-01" (.ok ()) (.ok ()) (by decide)

/-- Helper: folding calorie addition from an initial value equals the
initial value plus the sum of the mapped calories. -/
theorem foldl_calories_eq_sum :
    ∀ (l : List MealLogEntry) (init : ℚ),
      l.foldl (fun sum meal => sum + meal.calories) init
        = init + (l.map MealLogEntry.calories).sum := by
  intro l
  induction l with
  | nil => intro init ; simp
  | cons x xs ih => intro init ; simp [ih, add_assoc]

/-- C7: `getTodaysSummary` returns total_calories equal to the sum of the
calories of the date's entries, the three fixed-ratio macro estimates
round(total × 0.30 / 4), round(total × 0.45 / 4), round(total × 0.25 / 9),
and the date's entries themselves in insertion order (a filter of the held
list, which preserves order). -/
theorem getTodaysSummary_spec :
    ∀ (st : NutritionState) (today : String),
      (getTodaysSummary st today).total_calories
          = ((getTodaysMeals st today).map MealLogEntry.calories).sum
      ∧ (getTodaysSummary st today).total_protein
          = jsRound ((getTodaysSummary st today).total_calories * 0.30 / 4)
      ∧ (getTodaysSummary st today).total_carbs
          = jsRound ((getTodaysSummary st today).total_calories * 0.45 / 4)
      ∧ (getTodaysSummary st today).total_fats
          = jsRound ((getTodaysSummary st today).total_calories * 0.25 / 9)
      ∧ (getTodaysSummary st today).meals
          = st.meals.filter (fun meal => meal.date == today)
      ∧ (getTodaysSummary st today).date = today := by
  intro st today
  refine ⟨?_, ?_, ?_, ?_, rfl, rfl⟩
  · simp [getTodaysSummary, foldl_calories_eq_sum]
  · simp only [getTodaysSummary]
    congr 1
    norm_num
  · simp only [getTodaysSummary]
  · simp only [getTodaysSummary]

/-- C2 counterexample: a resolved 2xx response whose body lacks the
`coaching_tip` field is returned unchanged by `getCoachingTip`, not replaced
by the fallback string built from the food label — so not every malformed
response yields the fallback. -/
theorem getCoachingTip_cex :
    getCoachingTip 2000 1200 "pizza" 266 .maintain
        (fun _ => .ok { coaching_tip := none })
      = { coaching_tip := none }
    ∧ getCoachingTip 2000 1200 "pizza" 266 .maintain
        (fun _ => .ok { coaching_tip := none })
      ≠ { coaching_tip :=
            some "You\x27ve logged pizza. Keep tracking your meals!" } := by
  exact ⟨rfl, by decide⟩

/-- C2 amended: whenever the awaited advice post rejects (timeout, transport
failure, non-2xx status), `getCoachingTip` resolves — it is a total function,
so it never throws — with the deterministic fallback tip containing the food
label; a 2xx response with a malformed body, however, is passed through
unchanged rather than replaced by the fallback. -/
theorem getCoachingTip_fallback_amended :
    ∀ (userTdee caloriesConsumed : ℚ) (label : String) (foodCalories : ℚ)
      (goal : Goal)
      (post : CoachingRequest → Except AxiosFailure CoachingPayload)
      (e : AxiosFailure),
      post { user_tdee := userTdee, calories_consumed_so_far := caloriesConsumed,
             detected_food_label := label, detected_food_calories := foodCalories,
             user_goal := goal } = .error e →
      getCoachingTip userTdee caloriesConsumed label foodCalories goal post
        = { coaching_tip :=
              some ("You\x27ve logged " ++ label ++
                ". Keep tracking your meals!") } := by
  intro userTdee caloriesConsumed label foodCalories goal post e hpost
  unfold getCoachingTip
  rw [hpost]

/-- Witness for C2 at a timed-out advice call for the label 'pizza'. -/
theorem getCoachingTip_fallback_amended_witness :
    getCoachingTip 2000 1200 "pizza" 266 .maintain (fun _ => .error .timeout)
      = { coaching_tip :=
            some "You\x27ve logged pizza. Keep tracking your meals!" } :=
  getCoachingTip_fallback_amended 2000 1200 "pizza" 266 .maintain
    (fun _ => .error .timeout) .timeout rfl

/-- C8 counterexample: a resolved 2xx response whose body lacks both the
`label` and the `confidence` field is returned unchanged by `predictFood` —
it resolves successfully instead of throwing, so a malformed response does
not propagate to the caller as an error. -/
theorem predictFood_malformed_cex :
    predictFood "file:///tmp/food.jpg" false
        (fun _ => .ok { label := none, confidence := none })
      = .ok { label := none, confidence := none } := by
  rfl

/-- C8 amended: every rejection of the classification call (service
unreachable, timeout, non-2xx status) propagates to the caller as the fixed
thrown error; `predictFood` never fabricates a fallback prediction — a
successful result can only be the service's own response body.  A 2xx
response with a malformed body, however, does not reject and is passed
through unchanged rather than thrown. -/
theorem predictFood_error_amended :
    (∀ (imageUri : String) (isBase64 : Bool)
       (post : FormDataPayload → Except AxiosFailure PredictionPayload)
       (e : AxiosFailure),
       post (buildFormData imageUri isBase64) = .error e →
       predictFood imageUri isBase64 post
         = .error "Failed to predict food. Please try again.")
    ∧ (∀ (imageUri : String) (isBase64 : Bool)
        (post : FormDataPayload → Except AxiosFailure PredictionPayload)
        (r : PredictionPayload),
        predictFood imageUri isBase64 post = .ok r →
        post (buildFormData imageUri isBase64) = .ok r) := by
  constructor
  · intro imageUri isBase64 post e hpost
    unfold predictFood
    rw [hpost]
  · intro imageUri isBase64 post r hpred
    unfold predictFood at hpred
    cases hcall : post (buildFormData imageUri isBase64) with
    | ok r2 =>
        rw [hcall] at hpred
        simpa using hpred
    | error e =>
        rw [hcall] at hpred
        simp at hpred

/-- Witness for C8 at a transport failure for a file-uri image. -/
theorem predictFood_error_amended_witness :
    predictFood "file:///tmp/food.jpg" false (fun _ => .error .transport)
      = .error "Failed to predict food. Please try again." :=
  predictFood_error_amended.1 "file:///tmp/food.jpg" false
    (fun _ => .error .transport) .transport rfl

/-- C10: mutations update in-memory state before persisting — when the
storage write fails, `addMeal` has already appended the new entry to the
in-memory collection (leaving storage untouched) and rethrows the error, and
`setProfile` has already replaced the in-memory profile and rethrows. -/
theorem mutate_before_persist :
    ∀ (st : NutritionState) (meal : MealInput) (now : Nat) (e : String)
      (p : UserProfile),
      (addMeal st meal now (.error e)).2 = .error e
      ∧ (addMeal st meal now (.error e)).1.meals
          = st.meals ++
            [{ id := toString now, date := meal.date, time := meal.time,
               food_label := meal.food_label, calories := meal.calories,
               quantity := meal.quantity, unit := meal.unit }]
      ∧ (addMeal st meal now (.error e)).1.storedMeals = st.storedMeals
      ∧ (setProfile st p (.error e)).2 = .error e
      ∧ (setProfile st p (.error e)).1.profile = some p
      ∧ (setProfile st p (.error e)).1.storedProfile = st.storedProfile := by
  intro st meal now e p
  exact ⟨rfl, rfl, rfl, rfl, rfl, rfl⟩

end NutriVision
